import Mathlib

/-!
Verification of the face-centering guidance and capture engine of the
accessible selfie application.

The definitions below are a shallow embedding of the JavaScript sources:
  * `src/src/shared/util.js` — geometry evaluator (`isFaceCentered`),
    guidance composer (`getFacePositionGuidance`), announcement throttle
    (`speakMessage`), status updater (`updateFaceStatus`) and per-frame
    renderer (`drawResults`);
  * `src/src/index.js` — capture actions (`capturePhoto`,
    `takeAndDownloadPhoto`) and the render loop (`renderResult`,
    `renderPrediction`);
  * the HTML page — the initial face-status text.

JavaScript numbers are modelled as rationals (`ℚ`), timestamps as
integers (`ℤ`).  DOM, canvas drawing and the speech synthesis engine are
modelled by explicit state records that log the externally observable
effects (status text, cached guidance, throttle invocations, spoken
messages, alerts, captured image data).
-/

/-- Face bounding box in frame pixel coordinates (`face.box` in the source). -/
structure Box where
  xMin : ℚ
  yMin : ℚ
  xMax : ℚ
  yMax : ℚ
  deriving DecidableEq

/-- A detected face.  Only the bounding box is consumed by the logic under
verification (keypoints are used solely for canvas drawing, which has no
modelled effect). -/
structure Face where
  box : Box
  deriving DecidableEq

/-- Local `faceWidth = box.xMax - box.xMin` (local of `isFaceCentered` and
`getFacePositionGuidance` in util.js). -/
def faceWidth (face : Face) : ℚ := face.box.xMax - face.box.xMin

/-- Local `faceHeight = box.yMax - box.yMin`. -/
def faceHeight (face : Face) : ℚ := face.box.yMax - face.box.yMin

/-- Local `faceCenterX = box.xMin + faceWidth / 2`. -/
def faceCenterX (face : Face) : ℚ := face.box.xMin + faceWidth face / 2

/-- Local `faceCenterY = box.yMin + faceHeight / 2`. -/
def faceCenterY (face : Face) : ℚ := face.box.yMin + faceHeight face / 2

/-- Source `isFaceCentered` from util.js: distance of the face center from the
canvas center, each axis compared against 15% of the corresponding canvas
dimension. -/
def isFaceCentered (face : Face) (canvasWidth canvasHeight : ℚ) : Bool :=
  -- distanceX = |faceCenterX - canvasCenterX|, thresholdX = canvasWidth * 0.15
  decide (|faceCenterX face - canvasWidth / 2| ≤ canvasWidth * 0.15) &&
  decide (|faceCenterY face - canvasHeight / 2| ≤ canvasHeight * 0.15)

/-- Horizontal clause of `getFacePositionGuidance` (util.js):
`distanceX < -canvasWidth * 0.1` gives "Move right",
`distanceX > canvasWidth * 0.1` gives "Move left", else empty. -/
def horizontalGuidance (face : Face) (canvasWidth : ℚ) : String :=
  if faceCenterX face - canvasWidth / 2 < (-canvasWidth) * 0.1 then "Move right"
  else if faceCenterX face - canvasWidth / 2 > canvasWidth * 0.1 then "Move left"
  else ""

/-- Vertical clause of `getFacePositionGuidance`. -/
def verticalGuidance (face : Face) (canvasHeight : ℚ) : String :=
  if faceCenterY face - canvasHeight / 2 < (-canvasHeight) * 0.1 then "Move down"
  else if faceCenterY face - canvasHeight / 2 > canvasHeight * 0.1 then "Move up"
  else ""

/-- Distance clause of `getFacePositionGuidance`:
`idealFaceWidth = canvasWidth * 0.4`. -/
def distanceGuidance (face : Face) (canvasWidth : ℚ) : String :=
  if faceWidth face < canvasWidth * 0.4 * 0.7 then "Move closer to the camera"
  else if faceWidth face > canvasWidth * 0.4 * 1.3 then "Move farther from the camera"
  else ""

/-- Local `guidanceParts` of `getFacePositionGuidance`:
`[horizontalGuidance, verticalGuidance, distanceGuidance].filter(part => part !== '')`. -/
def guidanceParts (face : Face) (canvasWidth canvasHeight : ℚ) : List String :=
  [horizontalGuidance face canvasWidth, verticalGuidance face canvasHeight,
    distanceGuidance face canvasWidth].filter (fun part => part != "")

/-- Source `getFacePositionGuidance` from util.js.  The `none` case models the
JavaScript guard `if (!face || !face.box) return ''`. -/
def getFacePositionGuidance : Option Face → ℚ → ℚ → String
  | none, _, _ => ""
  | some face, canvasWidth, canvasHeight =>
    let parts := guidanceParts face canvasWidth canvasHeight
    if parts.isEmpty then "Almost centered. Make small adjustments."
    else String.intercalate ". " parts ++ "."

/-- Character-list version of JavaScript `startsWith`. -/
def startsWithChars : List Char → List Char → Bool
  | [], _ => true
  | _ :: _, [] => false
  | a :: as, b :: bs => a == b && startsWithChars as bs

/-- Character-list version of JavaScript substring containment. -/
def hasSubChars (pat : List Char) : List Char → Bool
  | [] => startsWithChars pat []
  | c :: rest => startsWithChars pat (c :: rest) || hasSubChars pat rest

/-- JavaScript `s.includes(pat)` (case-sensitive substring test), used by
`capturePhoto` and `takeAndDownloadPhoto` on the status text. -/
def stringIncludes (s pat : String) : Bool := hasSubChars pat.data s.data

/-- The module-level announcement record of util.js:
`lastAnnouncedStatus` / `lastAnnouncementTime`. -/
structure ThrottleState where
  lastAnnouncedStatus : String
  lastAnnouncementTime : ℤ
  deriving DecidableEq

/-- Observable state touched by util.js per frame: the `face-status` DOM
element (`statusText`, `statusColor`), the cached guidance slot
`window.currentFaceGuidance` (`""` models the initially falsy slot), the
announcement record, a log of invocations of the announcement throttle
(`throttleCalls`: message and interrupt flag of each `speakMessage` call),
the messages actually handed to `speechSynthesis.speak` (`spoken`),
whether speech synthesis exists in the window object (`speechAvailable`) and the current
`Date.now()` (`now`). -/
structure SessionState where
  statusText : String
  statusColor : String
  currentFaceGuidance : String
  throttle : ThrottleState
  throttleCalls : List (String × Bool)
  spoken : List String
  speechAvailable : Bool
  now : ℤ
  deriving DecidableEq

/-- Source `speakMessage(message, interrupt = false)` from util.js.  Every call is
logged in `throttleCalls`; speech is emitted unless speech synthesis is
unavailable or the identical message was announced less than 3000 ms ago;
on emission the announcement record is updated.  (The `cancel()` of
in-progress speech on `interrupt` and the utterance voice parameters have
no further modelled effect.) -/
def speakMessage (message : String) (interrupt : Bool) (st : SessionState) : SessionState :=
  let logged := { st with throttleCalls := st.throttleCalls ++ [(message, interrupt)] }
  if logged.speechAvailable = false then logged
  else if message = logged.throttle.lastAnnouncedStatus ∧
      logged.now - logged.throttle.lastAnnouncementTime < 3000 then logged
  else { logged with
    spoken := logged.spoken ++ [message]
    throttle := { lastAnnouncedStatus := message, lastAnnouncementTime := logged.now } }

/-- Source `updateFaceStatus(isCentered)` from util.js (the button-focus side
effect of the centered branch touches no modelled state). -/
def updateFaceStatus (isCentered : Bool) (st : SessionState) : SessionState :=
  if isCentered then
    let st := { st with
      statusText := "Face position: Centered" ++ " ✅", statusColor := "green" }
    speakMessage "Your face is centered. You can take a photo now." true st
  else
    let st := { st with
      statusText := "Face position: Not centered - Please center your face" ++ " ❌"
      statusColor := "red" }
    if st.currentFaceGuidance != "" then
      speakMessage st.currentFaceGuidance false st
    else
      speakMessage "Your face is not centered. Please adjust your position." false st

/-- Body of the `faces.forEach` loop of `drawResults` (util.js): under the
bounding-box option the face is evaluated, the guidance slot is refreshed
and the status is updated; otherwise only keypoints are drawn (no modelled
effect). -/
def drawResultsFace (canvasWidth canvasHeight : ℚ) (boundingBox : Bool)
    (st : SessionState) (face : Face) : SessionState :=
  if boundingBox then
    let centered := isFaceCentered face canvasWidth canvasHeight
    let st := { st with
      currentFaceGuidance := getFacePositionGuidance (some face) canvasWidth canvasHeight }
    updateFaceStatus centered st
  else st

/-- Source `drawResults(ctx, faces, boundingBox, showKeypoints)` from util.js:
the zero-face branch sets the no-face status text, then every face is
processed in order. -/
def drawResults (faces : List Face) (boundingBox showKeypoints : Bool)
    (canvasWidth canvasHeight : ℚ) (st : SessionState) : SessionState :=
  let st :=
    if faces.isEmpty then
      { st with statusText := "Face position: No face detected", statusColor := "orange" }
    else st
  faces.foldl (drawResultsFace canvasWidth canvasHeight boundingBox) st

/-- Modelled from the spec: `camera.js` (the `Camera` class) is not under
`src/`; per the one-way per-frame data flow of the spec, `camera.drawResults`
forwards the detected faces and display options to the shared
`drawResults`. -/
def cameraDrawResults : List Face → Bool → Bool → ℚ → ℚ → SessionState → SessionState :=
  drawResults

/-- Initial content of the `face-status` element in the HTML page. -/
def initialFaceStatusText : String := "Face position: Waiting for detection..."

/-- Observable state touched by the capture actions of index.js: the
status text read from the DOM, the photo canvas content and the
`captured-photo` image (the drawn video frame is abstracted to an integer
identifier; the mirror transform applied before drawing is a canvas
detail with no further modelled consequence), the download button state,
the shutter sound, whether the photo was saved/shared, whether the app
switched to the start-over screen, and the voice/alert messages emitted. -/
structure CaptureState where
  statusText : String
  photoCanvasImage : Option ℤ
  capturedPhotoSrc : Option ℤ
  capturedPhotoVisible : Bool
  downloadDisabled : Bool
  shutterPlayed : Bool
  photoSaved : Bool
  appStopped : Bool
  messages : List String
  deriving DecidableEq

/-- Source `capturePhoto()` from index.js: capture happens only when the status
text contains `"Centered"`; otherwise a corrective voice (or alert)
message is emitted and nothing else changes. -/
def capturePhoto (videoFrame : ℤ) (speechAvailable : Bool) (st : CaptureState) : CaptureState :=
  if stringIncludes st.statusText "Centered" then
    { st with
      photoCanvasImage := some videoFrame
      capturedPhotoSrc := some videoFrame
      capturedPhotoVisible := true
      downloadDisabled := false
      shutterPlayed := true
      messages := st.messages ++
        [if speechAvailable then
          "Photo captured successfully. You can now download it using the Download Photo button."
        else "Photo captured successfully!"] }
  else
    { st with messages := st.messages ++
        [if speechAvailable then
          "Please center your face before taking a photo. Use the Announce Position button for guidance."
        else "Please center your face before taking a photo."] }

/-- Source `takeAndDownloadPhoto()` from index.js.  On the success path the photo
is additionally saved (share or download) and the app transitions to the
start-over screen (`disableAppAndShowStartOver`); the 1500 ms delay before
saving only sequences speech and is not modelled separately. -/
def takeAndDownloadPhoto (videoFrame : ℤ) (speechAvailable isMobile : Bool)
    (st : CaptureState) : CaptureState :=
  if stringIncludes st.statusText "Centered" then
    { st with
      photoCanvasImage := some videoFrame
      capturedPhotoSrc := some videoFrame
      capturedPhotoVisible := true
      downloadDisabled := false
      shutterPlayed := true
      photoSaved := true
      appStopped := true
      messages := st.messages ++
        [if speechAvailable then
          (if isMobile then "Photo captured. Saving to gallery."
           else "Photo captured and downloading automatically.")
        else
          (if isMobile then "Photo captured. Saving to gallery."
           else "Photo captured and downloaded successfully!")] }
  else
    { st with messages := st.messages ++
        [if speechAvailable then
          "Please center your face before taking a photo. Use the Announce Position button for guidance."
        else "Please center your face before taking a photo."] }

/-- Result of `detector.estimateFaces` on one frame: a face list, or a
thrown error. -/
inductive InferOutcome where
  | ok (faces : List Face)
  | err
  deriving DecidableEq

/-- Observable state of the render loop in index.js: whether `detector`
is non-null, how many times `dispose()` and `alert()` ran, how many
inference calls were attempted, the shared session state, and whether the
next animation frame is scheduled (`rafId`). -/
structure AppState where
  detectorPresent : Bool
  disposeCount : Nat
  alertCount : Nat
  inferenceCount : Nat
  session : SessionState
  loopScheduled : Bool
  deriving DecidableEq

/-- Source `renderResult()` from index.js: inference runs only when the detector
is non-null; a thrown inference disposes and nulls the detector and
alerts; `camera.drawResults` runs only when `faces && faces.length > 0 &&
!STATE.isModelChanged`. -/
def renderResult (outcome : InferOutcome) (isModelChanged boundingBox showKeypoints : Bool)
    (canvasWidth canvasHeight : ℚ) (app : AppState) : AppState :=
  if app.detectorPresent then
    let app := { app with inferenceCount := app.inferenceCount + 1 }
    match outcome with
    | .err =>
      { app with
        detectorPresent := false
        disposeCount := app.disposeCount + 1
        alertCount := app.alertCount + 1 }
    | .ok faces =>
      if 0 < faces.length ∧ isModelChanged = false then
        { app with session :=
            cameraDrawResults faces boundingBox showKeypoints canvasWidth canvasHeight app.session }
      else app
  else app

/-- Source `renderPrediction()` from index.js: render the frame (unless a model
change is in progress) and unconditionally schedule the next animation
frame. -/
def renderPrediction (outcome : InferOutcome) (isModelChanged boundingBox showKeypoints : Bool)
    (canvasWidth canvasHeight : ℚ) (app : AppState) : AppState :=
  let app :=
    if isModelChanged = false then
      renderResult outcome isModelChanged boundingBox showKeypoints canvasWidth canvasHeight app
    else app
  { app with loopScheduled := true }

/-- Concrete announcement record used by the example states. -/
def sampleThrottle : ThrottleState :=
  { lastAnnouncedStatus := "Your face is centered. You can take a photo now."
    lastAnnouncementTime := 0 }

/-- A session whose previous frame showed the centered status. -/
def sampleCenteredSession : SessionState :=
  { statusText := "Face position: Centered ✅"
  , statusColor := "green"
  , currentFaceGuidance := ""
  , throttle := sampleThrottle
  , throttleCalls := []
  , spoken := []
  , speechAvailable := true
  , now := 1000 }

/-- A face in the top-left corner of a 100×100 frame: far off-center and
too small. -/
def sampleFaceTopLeft : Face := { box := { xMin := 0, yMin := 0, xMax := 10, yMax := 10 } }

/-- A face exactly centered in a 100×100 frame with ideal width. -/
def sampleFaceCentered : Face := { box := { xMin := 30, yMin := 30, xMax := 70, yMax := 70 } }

/-- A capture-page state whose status text shows "Not centered". -/
def sampleNotCenteredCapture : CaptureState :=
  { statusText := "Face position: Not centered - Please center your face ❌"
  , photoCanvasImage := none
  , capturedPhotoSrc := none
  , capturedPhotoVisible := false
  , downloadDisabled := true
  , shutterPlayed := false
  , photoSaved := false
  , appStopped := false
  , messages := [] }

/-- An app state with a live detector whose previous frame was centered. -/
def sampleAppCentered : AppState :=
  { detectorPresent := true
  , disposeCount := 0
  , alertCount := 0
  , inferenceCount := 0
  , session := sampleCenteredSession
  , loopScheduled := true }

/-! ### Helper lemmas -/

theorem statusText_speakMessage (m : String) (i : Bool) (st : SessionState) :
    (speakMessage m i st).statusText = st.statusText := by
  simp only [speakMessage]
  split_ifs <;> rfl

theorem currentFaceGuidance_speakMessage (m : String) (i : Bool) (st : SessionState) :
    (speakMessage m i st).currentFaceGuidance = st.currentFaceGuidance := by
  simp only [speakMessage]
  split_ifs <;> rfl

theorem throttleCalls_speakMessage (m : String) (i : Bool) (st : SessionState) :
    (speakMessage m i st).throttleCalls = st.throttleCalls ++ [(m, i)] := by
  simp only [speakMessage]
  split_ifs <;> rfl

theorem guidanceParts_eq (face : Face) (w h : ℚ) :
    guidanceParts face w h =
      [horizontalGuidance face w, verticalGuidance face h,
        distanceGuidance face w].filter (fun part => part != "") := rfl

theorem horizontalGuidance_cases (face : Face) (w : ℚ) :
    horizontalGuidance face w = "Move right" ∨ horizontalGuidance face w = "Move left" ∨
      horizontalGuidance face w = "" := by
  unfold horizontalGuidance
  split_ifs <;> simp

theorem verticalGuidance_cases (face : Face) (h : ℚ) :
    verticalGuidance face h = "Move down" ∨ verticalGuidance face h = "Move up" ∨
      verticalGuidance face h = "" := by
  unfold verticalGuidance
  split_ifs <;> simp

theorem distanceGuidance_cases (face : Face) (w : ℚ) :
    distanceGuidance face w = "Move closer to the camera" ∨
      distanceGuidance face w = "Move farther from the camera" ∨
      distanceGuidance face w = "" := by
  unfold distanceGuidance
  split_ifs <;> simp

theorem mem_guidanceParts (face : Face) (w h : ℚ) (s : String) (hs : (s != "") = true) :
    s ∈ guidanceParts face w h ↔
      horizontalGuidance face w = s ∨ verticalGuidance face h = s ∨
        distanceGuidance face w = s := by
  rw [guidanceParts_eq, List.mem_filter]
  simp [hs, eq_comm]

theorem getFacePositionGuidance_ne_empty (face : Face) (w h : ℚ) :
    getFacePositionGuidance (some face) w h ≠ "" := by
  show (if (guidanceParts face w h).isEmpty then "Almost centered. Make small adjustments."
    else String.intercalate ". " (guidanceParts face w h) ++ ".") ≠ ""
  split_ifs with hp
  · intro hcontra
    exact absurd hcontra (by decide)
  · intro hcontra
    have hlen := congrArg String.length hcontra
    rw [String.length_append] at hlen
    have h1 : (".").length = 1 := rfl
    have h0 : ("").length = 0 := rfl
    rw [h1, h0] at hlen
    omega

theorem horizontalGuidance_eq_right (face : Face) (w : ℚ) :
    horizontalGuidance face w = "Move right" ↔ faceCenterX face - w / 2 < -(0.1 * w) := by
  unfold horizontalGuidance
  split_ifs with h1 h2
  · exact iff_of_true rfl (by linarith)
  · exact iff_of_false (by decide) (by linarith)
  · exact iff_of_false (by decide) (by linarith)

theorem horizontalGuidance_eq_left (face : Face) (w : ℚ) (hw : 0 < w) :
    horizontalGuidance face w = "Move left" ↔ 0.1 * w < faceCenterX face - w / 2 := by
  unfold horizontalGuidance
  split_ifs with h1 h2
  · exact iff_of_false (by decide) (by linarith)
  · exact iff_of_true rfl (by linarith)
  · exact iff_of_false (by decide) (by linarith)

theorem verticalGuidance_eq_down (face : Face) (h : ℚ) :
    verticalGuidance face h = "Move down" ↔ faceCenterY face - h / 2 < -(0.1 * h) := by
  unfold verticalGuidance
  split_ifs with h1 h2
  · exact iff_of_true rfl (by linarith)
  · exact iff_of_false (by decide) (by linarith)
  · exact iff_of_false (by decide) (by linarith)

theorem verticalGuidance_eq_up (face : Face) (h : ℚ) (hh : 0 < h) :
    verticalGuidance face h = "Move up" ↔ 0.1 * h < faceCenterY face - h / 2 := by
  unfold verticalGuidance
  split_ifs with h1 h2
  · exact iff_of_false (by decide) (by linarith)
  · exact iff_of_true rfl (by linarith)
  · exact iff_of_false (by decide) (by linarith)

theorem distanceGuidance_eq_closer (face : Face) (w : ℚ) (hw : 0 < w) :
    distanceGuidance face w = "Move closer to the camera" ↔
      faceWidth face < 0.7 * (0.4 * w) := by
  unfold distanceGuidance
  split_ifs with h1 h2
  · exact iff_of_true rfl (by linarith)
  · exact iff_of_false (by decide) (by linarith)
  · exact iff_of_false (by decide) (by linarith)

theorem distanceGuidance_eq_farther (face : Face) (w : ℚ) (hw : 0 < w) :
    distanceGuidance face w = "Move farther from the camera" ↔
      1.3 * (0.4 * w) < faceWidth face := by
  unfold distanceGuidance
  split_ifs with h1 h2
  · exact iff_of_false (by decide) (by linarith)
  · exact iff_of_true rfl (by linarith)
  · exact iff_of_false (by decide) (by linarith)

theorem throttleCalls_updateFaceStatus (b : Bool) (st : SessionState) :
    (updateFaceStatus b st).throttleCalls = st.throttleCalls ++
      [if b then ("Your face is centered. You can take a photo now.", true)
       else if st.currentFaceGuidance != "" then (st.currentFaceGuidance, false)
       else ("Your face is not centered. Please adjust your position.", false)] := by
  cases b <;> simp only [updateFaceStatus, Bool.false_eq_true, if_false, if_true]
  · split_ifs with hg <;> rw [throttleCalls_speakMessage]
  · rw [throttleCalls_speakMessage]

theorem throttleCalls_drawResultsFace (w h : ℚ) (st : SessionState) (face : Face) :
    (drawResultsFace w h true st face).throttleCalls = st.throttleCalls ++
      [if isFaceCentered face w h then
        ("Your face is centered. You can take a photo now.", true)
       else (getFacePositionGuidance (some face) w h, false)] := by
  have hg : (getFacePositionGuidance (some face) w h != "") = true := by
    simp [bne_iff_ne, getFacePositionGuidance_ne_empty]
  simp only [drawResultsFace, if_true]
  rw [throttleCalls_updateFaceStatus]
  cases hc : isFaceCentered face w h <;> simp [hg]

theorem throttleCalls_foldl (w h : ℚ) (faces : List Face) :
    ∀ st : SessionState,
      (faces.foldl (drawResultsFace w h true) st).throttleCalls = st.throttleCalls ++
        faces.map (fun f =>
          if isFaceCentered f w h then
            ("Your face is centered. You can take a photo now.", true)
          else (getFacePositionGuidance (some f) w h, false)) := by
  induction faces with
  | nil => intro st; simp
  | cons f fs ih =>
    intro st
    simp only [List.foldl_cons, List.map_cons, ih, throttleCalls_drawResultsFace,
      List.append_assoc, List.singleton_append]

theorem drawResultsFace_no_boundingBox (w h : ℚ) (st : SessionState) (face : Face) :
    drawResultsFace w h false st face = st := rfl

theorem foldl_no_boundingBox (w h : ℚ) (faces : List Face) (st : SessionState) :
    faces.foldl (drawResultsFace w h false) st = st := by
  induction faces generalizing st with
  | nil => rfl
  | cons f fs ih => rw [List.foldl_cons, drawResultsFace_no_boundingBox, ih]

theorem statusText_updateFaceStatus (b : Bool) (st : SessionState) :
    (updateFaceStatus b st).statusText =
      if b then "Face position: Centered" ++ " ✅"
      else "Face position: Not centered - Please center your face" ++ " ❌" := by
  cases b <;> simp only [updateFaceStatus, Bool.false_eq_true, if_false, if_true]
  · split_ifs with hg <;> rw [statusText_speakMessage]
  · rw [statusText_speakMessage]

theorem sampleFaceTopLeft_guidance :
    getFacePositionGuidance (some sampleFaceTopLeft) 100 100 =
      "Move right. Move down. Move closer to the camera." := by
  have hh : horizontalGuidance sampleFaceTopLeft 100 = "Move right" := by
    unfold horizontalGuidance
    rw [if_pos]
    norm_num [faceCenterX, faceWidth, sampleFaceTopLeft]
  have hv : verticalGuidance sampleFaceTopLeft 100 = "Move down" := by
    unfold verticalGuidance
    rw [if_pos]
    norm_num [faceCenterY, faceHeight, sampleFaceTopLeft]
  have hd : distanceGuidance sampleFaceTopLeft 100 = "Move closer to the camera" := by
    unfold distanceGuidance
    rw [if_pos]
    norm_num [faceWidth, sampleFaceTopLeft]
  have hp : guidanceParts sampleFaceTopLeft 100 100 =
      ["Move right", "Move down", "Move closer to the camera"] := by
    rw [guidanceParts_eq, hh, hv, hd]
    decide
  show (if (guidanceParts sampleFaceTopLeft 100 100).isEmpty then
      "Almost centered. Make small adjustments."
    else String.intercalate ". " (guidanceParts sampleFaceTopLeft 100 100) ++ ".") = _
  rw [hp]
  decide

theorem sampleFaceTopLeft_not_centered :
    isFaceCentered sampleFaceTopLeft 100 100 = false := by
  norm_num [isFaceCentered, faceCenterX, faceCenterY, faceWidth, faceHeight, sampleFaceTopLeft]

theorem sampleFaceCentered_centered :
    isFaceCentered sampleFaceCentered 100 100 = true := by
  norm_num [isFaceCentered, faceCenterX, faceCenterY, faceWidth, faceHeight, sampleFaceCentered]

/-! ### Claim theorems -/

/-- Claim C1: for every face box and frame dimensions, `isFaceCentered`
returns true if and only if both the absolute horizontal offset of the
face-box center from the frame center is at most 0.15 times the frame
width and the absolute vertical offset is at most 0.15 times the frame
height; each axis is thresholded independently, with no combined
radius/magnitude test. -/
theorem isFaceCentered_iff_within_thresholds (face : Face) (w h : ℚ) :
    isFaceCentered face w h = true ↔
      |faceCenterX face - w / 2| ≤ 0.15 * w ∧ |faceCenterY face - h / 2| ≤ 0.15 * h := by
  simp [isFaceCentered, mul_comm]

/-- Claim C2: the guidance composer includes "Move right" exactly when the
signed horizontal offset is below −0.1·width, "Move left" exactly when it
is above 0.1·width, "Move down" exactly when the signed vertical offset is
below −0.1·height, and "Move up" exactly when it is above 0.1·height;
otherwise the corresponding clause is absent (frame dimensions positive). -/
theorem guidance_directional_clauses (face : Face) (w h : ℚ) (hw : 0 < w) (hh : 0 < h) :
    (("Move right" ∈ guidanceParts face w h) ↔ faceCenterX face - w / 2 < -(0.1 * w)) ∧
    (("Move left" ∈ guidanceParts face w h) ↔ 0.1 * w < faceCenterX face - w / 2) ∧
    (("Move down" ∈ guidanceParts face w h) ↔ faceCenterY face - h / 2 < -(0.1 * h)) ∧
    (("Move up" ∈ guidanceParts face w h) ↔ 0.1 * h < faceCenterY face - h / 2) := by
  refine ⟨?_, ?_, ?_, ?_⟩
  · rw [mem_guidanceParts face w h _ (by decide), ← horizontalGuidance_eq_right face w]
    constructor
    · rintro (h1 | h1 | h1)
      · exact h1
      · rcases verticalGuidance_cases face h with hv | hv | hv <;>
          rw [hv] at h1 <;> exact absurd h1 (by decide)
      · rcases distanceGuidance_cases face w with hd | hd | hd <;>
          rw [hd] at h1 <;> exact absurd h1 (by decide)
    · exact Or.inl
  · rw [mem_guidanceParts face w h _ (by decide), ← horizontalGuidance_eq_left face w hw]
    constructor
    · rintro (h1 | h1 | h1)
      · exact h1
      · rcases verticalGuidance_cases face h with hv | hv | hv <;>
          rw [hv] at h1 <;> exact absurd h1 (by decide)
      · rcases distanceGuidance_cases face w with hd | hd | hd <;>
          rw [hd] at h1 <;> exact absurd h1 (by decide)
    · exact Or.inl
  · rw [mem_guidanceParts face w h _ (by decide), ← verticalGuidance_eq_down face h]
    constructor
    · rintro (h1 | h1 | h1)
      · rcases horizontalGuidance_cases face w with hg | hg | hg <;>
          rw [hg] at h1 <;> exact absurd h1 (by decide)
      · exact h1
      · rcases distanceGuidance_cases face w with hd | hd | hd <;>
          rw [hd] at h1 <;> exact absurd h1 (by decide)
    · exact fun h1 => Or.inr (Or.inl h1)
  · rw [mem_guidanceParts face w h _ (by decide), ← verticalGuidance_eq_up face h hh]
    constructor
    · rintro (h1 | h1 | h1)
      · rcases horizontalGuidance_cases face w with hg | hg | hg <;>
          rw [hg] at h1 <;> exact absurd h1 (by decide)
      · exact h1
      · rcases distanceGuidance_cases face w with hd | hd | hd <;>
          rw [hd] at h1 <;> exact absurd h1 (by decide)
    · exact fun h1 => Or.inr (Or.inl h1)

/-- Witness for C2 at a concrete face and 100×100 frame. -/
theorem guidance_directional_clauses_witness :
    (0 : ℚ) < 100 ∧
    (("Move right" ∈ guidanceParts sampleFaceTopLeft 100 100) ↔
      faceCenterX sampleFaceTopLeft - 100 / 2 < -(0.1 * 100)) :=
  ⟨by norm_num,
    (guidance_directional_clauses sampleFaceTopLeft 100 100 (by norm_num) (by norm_num)).1⟩

/-- Claim C3: the guidance includes "Move closer" exactly when the face
width is below 0.7·(0.4·width) and "Move farther" exactly when it is above
1.3·(0.4·width); the non-empty horizontal, vertical and distance clauses
are kept in that fixed order, joined with ". " and terminated with a
period; when all three clauses are empty the composer returns the
"almost centered" fallback (frame width positive). -/
theorem guidance_distance_and_composition (face : Face) (w h : ℚ) (hw : 0 < w) :
    (("Move closer to the camera" ∈ guidanceParts face w h) ↔
      faceWidth face < 0.7 * (0.4 * w)) ∧
    (("Move farther from the camera" ∈ guidanceParts face w h) ↔
      1.3 * (0.4 * w) < faceWidth face) ∧
    guidanceParts face w h =
      [horizontalGuidance face w, verticalGuidance face h,
        distanceGuidance face w].filter (fun part => part != "") ∧
    (guidanceParts face w h = [] →
      getFacePositionGuidance (some face) w h = "Almost centered. Make small adjustments.") ∧
    (guidanceParts face w h ≠ [] →
      getFacePositionGuidance (some face) w h =
        String.intercalate ". " (guidanceParts face w h) ++ ".") := by
  refine ⟨?_, ?_, guidanceParts_eq face w h, ?_, ?_⟩
  · rw [mem_guidanceParts face w h _ (by decide), ← distanceGuidance_eq_closer face w hw]
    constructor
    · rintro (h1 | h1 | h1)
      · rcases horizontalGuidance_cases face w with hg | hg | hg <;>
          rw [hg] at h1 <;> exact absurd h1 (by decide)
      · rcases verticalGuidance_cases face h with hv | hv | hv <;>
          rw [hv] at h1 <;> exact absurd h1 (by decide)
      · exact h1
    · exact fun h1 => Or.inr (Or.inr h1)
  · rw [mem_guidanceParts face w h _ (by decide), ← distanceGuidance_eq_farther face w hw]
    constructor
    · rintro (h1 | h1 | h1)
      · rcases horizontalGuidance_cases face w with hg | hg | hg <;>
          rw [hg] at h1 <;> exact absurd h1 (by decide)
      · rcases verticalGuidance_cases face h with hv | hv | hv <;>
          rw [hv] at h1 <;> exact absurd h1 (by decide)
      · exact h1
    · exact fun h1 => Or.inr (Or.inr h1)
  · intro hp
    show (if (guidanceParts face w h).isEmpty then "Almost centered. Make small adjustments."
      else String.intercalate ". " (guidanceParts face w h) ++ ".") = _
    rw [hp]
    decide
  · intro hp
    show (if (guidanceParts face w h).isEmpty then "Almost centered. Make small adjustments."
      else String.intercalate ". " (guidanceParts face w h) ++ ".") = _
    rw [if_neg (by simp [List.isEmpty_iff, hp])]

/-- Witness for C3 at a concrete face and 100×100 frame. -/
theorem guidance_distance_and_composition_witness :
    (0 : ℚ) < 100 ∧
    (("Move closer to the camera" ∈ guidanceParts sampleFaceTopLeft 100 100) ↔
      faceWidth sampleFaceTopLeft < 0.7 * (0.4 * 100)) :=
  ⟨by norm_num, (guidance_distance_and_composition sampleFaceTopLeft 100 100 (by norm_num)).1⟩

/-- Claim C4: with speech available, `speakMessage` emits no speech when
the message equals the last announced message and less than 3000 ms have
elapsed; it emits speech whenever the message differs (regardless of
elapsed time) or when at least 3000 ms have elapsed; and every emitting
call updates the announcement record to the new message and the current
timestamp. -/
theorem speakMessage_throttle_behavior (st : SessionState) (m : String) (i : Bool)
    (hsa : st.speechAvailable = true) :
    ((m = st.throttle.lastAnnouncedStatus ∧
        st.now - st.throttle.lastAnnouncementTime < 3000) →
      (speakMessage m i st).spoken = st.spoken ∧
      (speakMessage m i st).throttle = st.throttle) ∧
    (m ≠ st.throttle.lastAnnouncedStatus →
      (speakMessage m i st).spoken = st.spoken ++ [m]) ∧
    ((m = st.throttle.lastAnnouncedStatus ∧
        3000 ≤ st.now - st.throttle.lastAnnouncementTime) →
      (speakMessage m i st).spoken = st.spoken ++ [m]) ∧
    ((speakMessage m i st).spoken ≠ st.spoken →
      (speakMessage m i st).throttle =
        { lastAnnouncedStatus := m, lastAnnouncementTime := st.now }) := by
  simp only [speakMessage, hsa, Bool.true_eq_false, if_false]
  split_ifs with hcond
  · refine ⟨fun _ => ⟨rfl, rfl⟩, fun hne => absurd hcond.1 hne,
      fun hlate => absurd hcond.2 (by omega), fun hne => absurd rfl hne⟩
  · refine ⟨fun hc => absurd hc hcond, fun _ => rfl, fun _ => rfl, fun _ => rfl⟩

/-- Witness for C4: a fresh message is spoken immediately. -/
theorem speakMessage_throttle_behavior_witness :
    sampleCenteredSession.speechAvailable = true ∧
    "Hello" ≠ sampleCenteredSession.throttle.lastAnnouncedStatus ∧
    (speakMessage "Hello" false sampleCenteredSession).spoken =
      sampleCenteredSession.spoken ++ ["Hello"] :=
  ⟨rfl, by decide,
    (speakMessage_throttle_behavior sampleCenteredSession "Hello" false rfl).2.1 (by decide)⟩

/-- Claim C5: when the status text does not contain "Centered", neither
capture action produces an image, changes the photo canvas or captured
photo, enables the download button, plays the shutter sound, saves the
photo or stops the app; each only appends the corrective voice/alert
message.  Capture succeeds only when the status text contains "Centered". -/
theorem capture_requires_centered (frame : ℤ) (sa mob : Bool) (st : CaptureState)
    (hnc : stringIncludes st.statusText "Centered" = false) :
    (capturePhoto frame sa st).photoCanvasImage = st.photoCanvasImage ∧
    (capturePhoto frame sa st).capturedPhotoSrc = st.capturedPhotoSrc ∧
    (capturePhoto frame sa st).capturedPhotoVisible = st.capturedPhotoVisible ∧
    (capturePhoto frame sa st).downloadDisabled = st.downloadDisabled ∧
    (capturePhoto frame sa st).shutterPlayed = st.shutterPlayed ∧
    (capturePhoto frame sa st).appStopped = st.appStopped ∧
    (capturePhoto frame sa st).messages = st.messages ++
      [if sa then
        "Please center your face before taking a photo. Use the Announce Position button for guidance."
      else "Please center your face before taking a photo."] ∧
    (takeAndDownloadPhoto frame sa mob st).photoCanvasImage = st.photoCanvasImage ∧
    (takeAndDownloadPhoto frame sa mob st).capturedPhotoSrc = st.capturedPhotoSrc ∧
    (takeAndDownloadPhoto frame sa mob st).capturedPhotoVisible = st.capturedPhotoVisible ∧
    (takeAndDownloadPhoto frame sa mob st).downloadDisabled = st.downloadDisabled ∧
    (takeAndDownloadPhoto frame sa mob st).shutterPlayed = st.shutterPlayed ∧
    (takeAndDownloadPhoto frame sa mob st).photoSaved = st.photoSaved ∧
    (takeAndDownloadPhoto frame sa mob st).appStopped = st.appStopped ∧
    (takeAndDownloadPhoto frame sa mob st).messages = st.messages ++
      [if sa then
        "Please center your face before taking a photo. Use the Announce Position button for guidance."
      else "Please center your face before taking a photo."] := by
  simp [capturePhoto, takeAndDownloadPhoto, hnc]

/-- Witness for C5 at a concrete not-centered state. -/
theorem capture_requires_centered_witness :
    stringIncludes sampleNotCenteredCapture.statusText "Centered" = false ∧
    (capturePhoto 7 true sampleNotCenteredCapture).photoCanvasImage =
      sampleNotCenteredCapture.photoCanvasImage :=
  ⟨by decide, (capture_requires_centered 7 true false sampleNotCenteredCapture (by decide)).1⟩

/-- Claim C6: the visible status text contains the substring "Centered"
exactly when the session considers the face centered: the text written by
`updateFaceStatus` contains it iff its argument is true, the no-face text
written by `drawResults` on an empty face list does not contain it, and
neither does the initial waiting text from the HTML page. -/
theorem status_text_centered_contract :
    (∀ (b : Bool) (st : SessionState),
      stringIncludes (updateFaceStatus b st).statusText "Centered" = b) ∧
    (∀ (bb kp : Bool) (w h : ℚ) (st : SessionState),
      stringIncludes (drawResults [] bb kp w h st).statusText "Centered" = false) ∧
    stringIncludes initialFaceStatusText "Centered" = false := by
  refine ⟨?_, ?_, by decide⟩
  · intro b st
    rw [statusText_updateFaceStatus]
    cases b
    · simp only [Bool.false_eq_true, if_false]
      decide
    · simp only [if_true]
      decide
  · intro bb kp w h st
    have hst : (drawResults [] bb kp w h st).statusText =
        "Face position: No face detected" := rfl
    rw [hst]
    decide

/-- Claim C7 (divergence): on a zero-face frame the render loop leaves the
status text unchanged, because `renderResult` invokes `drawResults` only
when `faces.length > 0`; the no-face branch of `drawResults` (which would
set "Face position: No face detected") is unreachable from the loop. -/
theorem zero_face_frame_leaves_status_unchanged :
    (renderResult (.ok []) false true false 100 100 sampleAppCentered).session.statusText =
      "Face position: Centered ✅" ∧
    "Face position: Centered ✅" ≠ "Face position: No face detected" ∧
    (drawResults [] true false 100 100 sampleCenteredSession).statusText =
      "Face position: No face detected" := by
  refine ⟨rfl, by decide, rfl⟩

/-- Claim C8 (counterexample): with the previous status "Centered" and two
detected faces — the first badly off-center, the second centered — the
throttle is invoked once per face (so not only for the first face), and
the not-centered call on this centered→not-centered frame carries
interrupt = false, not the interrupt = true the claim requires. -/
theorem drawResults_counterexample_per_face_no_interrupt :
    stringIncludes sampleCenteredSession.statusText "Centered" = true ∧
    isFaceCentered sampleFaceTopLeft 100 100 = false ∧
    isFaceCentered sampleFaceCentered 100 100 = true ∧
    (drawResults [sampleFaceTopLeft, sampleFaceCentered] true false 100 100
        sampleCenteredSession).throttleCalls =
      [("Move right. Move down. Move closer to the camera.", false),
       ("Your face is centered. You can take a photo now.", true)] := by
  refine ⟨by decide, sampleFaceTopLeft_not_centered, sampleFaceCentered_centered, ?_⟩
  have hfold := throttleCalls_foldl 100 100 [sampleFaceTopLeft, sampleFaceCentered]
    sampleCenteredSession
  show (([sampleFaceTopLeft, sampleFaceCentered] : List Face).foldl
      (drawResultsFace 100 100 true) sampleCenteredSession).throttleCalls = _
  rw [hfold]
  simp only [List.map_cons, List.map_nil, sampleFaceTopLeft_not_centered,
    sampleFaceCentered_centered, Bool.false_eq_true, if_false, if_true,
    sampleFaceTopLeft_guidance]
  rfl

/-- Claim C8 as amended: on every frame with at least one face and the
bounding-box option enabled, the throttle is invoked once per detected
face, in order; each call carries the fixed centered message with
interrupt = true when that face is centered, and otherwise the composed
guidance of that face with interrupt = false (no interrupt special-case on
centered→not-centered transitions). -/
theorem drawResults_throttle_per_face (faces : List Face) (kp : Bool) (w h : ℚ)
    (st : SessionState) (hne : faces ≠ []) :
    (drawResults faces true kp w h st).throttleCalls = st.throttleCalls ++
      faces.map (fun f =>
        if isFaceCentered f w h then
          ("Your face is centered. You can take a photo now.", true)
        else (getFacePositionGuidance (some f) w h, false)) := by
  simp only [drawResults]
  rw [if_neg (by simp [List.isEmpty_iff, hne])]
  exact throttleCalls_foldl w h faces st

/-- Witness for the amended C8 on a single-face frame. -/
theorem drawResults_throttle_per_face_witness :
    ([sampleFaceTopLeft] : List Face) ≠ [] ∧
    (drawResults [sampleFaceTopLeft] true false 100 100 sampleCenteredSession).throttleCalls =
      sampleCenteredSession.throttleCalls ++
        [sampleFaceTopLeft].map (fun f =>
          if isFaceCentered f 100 100 then
            ("Your face is centered. You can take a photo now.", true)
          else (getFacePositionGuidance (some f) 100 100, false)) :=
  ⟨by decide,
    drawResults_throttle_per_face [sampleFaceTopLeft] false 100 100 sampleCenteredSession
      (by decide)⟩

/-- Claim C9: a throwing inference call disposes and nulls the detector
and surfaces the error; with a null detector no inference is attempted and
the session (hence the face status) is untouched; and the render loop
schedules the next frame regardless. -/
theorem inference_failure_degrades (outcome : InferOutcome)
    (mc bb kp : Bool) (w h : ℚ) (app : AppState) :
    (app.detectorPresent = true →
      (renderResult .err mc bb kp w h app).detectorPresent = false ∧
      (renderResult .err mc bb kp w h app).disposeCount = app.disposeCount + 1 ∧
      (renderResult .err mc bb kp w h app).alertCount = app.alertCount + 1 ∧
      (renderResult .err mc bb kp w h app).session = app.session) ∧
    (app.detectorPresent = false →
      renderResult outcome mc bb kp w h app = app) ∧
    (renderPrediction outcome mc bb kp w h app).loopScheduled = true := by
  refine ⟨?_, ?_, ?_⟩
  · intro hd
    simp [renderResult, hd]
  · intro hd
    simp [renderResult, hd]
  · simp [renderPrediction]

/-- Witness for C9: a live detector is nulled by a throwing inference. -/
theorem inference_failure_degrades_witness :
    sampleAppCentered.detectorPresent = true ∧
    (renderResult .err false true false 100 100 sampleAppCentered).detectorPresent = false :=
  ⟨rfl,
    ((inference_failure_degrades (.ok []) false true false 100 100 sampleAppCentered).1 rfl).1⟩

/-- Claim C10: on a frame with a non-empty face list but the bounding-box
option disabled, `drawResults` is the identity on the session state: the
status text, the cached guidance slot, the announcement record, the
throttle log and the spoken messages are all unchanged. -/
theorem drawResults_noop_without_boundingBox (faces : List Face) (kp : Bool) (w h : ℚ)
    (st : SessionState) (hne : faces ≠ []) :
    drawResults faces false kp w h st = st := by
  simp only [drawResults]
  rw [if_neg (by simp [List.isEmpty_iff, hne])]
  exact foldl_no_boundingBox w h faces st

/-- Witness for C10 on a single-face frame. -/
theorem drawResults_noop_without_boundingBox_witness :
    ([sampleFaceTopLeft] : List Face) ≠ [] ∧
    drawResults [sampleFaceTopLeft] false false 100 100 sampleCenteredSession =
      sampleCenteredSession :=
  ⟨by decide,
    drawResults_noop_without_boundingBox [sampleFaceTopLeft] false 100 100
      sampleCenteredSession (by decide)⟩
